import Mathlib

/-!
Verification of the image-classification training repository
(`train.py`, `model.py`) against its natural-language specification.

The Python sources are shallowly embedded below: pure fragments become Lean
functions, the stateful train/validation loops become explicit state passing,
floating point values are modelled by rationals, tensors by lists, and
fallible Python statements return `Except String`.  Behaviour supplied by the
external frameworks (torch, torchvision, sklearn, the absent `dataset.py`
module) enters only as oracle parameters; everything written in this
repository is transcribed from the source.
-/

namespace MaskRepo

/-! ### Epoch-end checkpointing (train.py lines 187-189 and 325-332)

`best_val_acc = 0`, `best_val_loss = np.inf`, `best_f1_score = 0`; after the
validation loop each epoch runs
`best_val_acc = max(best_val_acc, val_acc)`,
`best_val_loss = min(best_val_loss, val_loss)`,
`if val_f1 > best_f1_score: save best.pth; best_f1_score = val_f1`,
`save last.pth`.  `np.inf` is modelled by `⊤ : WithTop ℚ`. -/

/-- Tracked best metrics of the training driver. -/
structure BestState where
  best_val_acc : ℚ
  best_val_loss : WithTop ℚ
  best_f1_score : ℚ
deriving DecidableEq

/-- Initial values set just before the epoch loop (train.py lines 187-189). -/
def init_best : BestState :=
  { best_val_acc := 0, best_val_loss := ⊤, best_f1_score := 0 }

/-- Validation metrics produced by one epoch. -/
structure EpochVal where
  val_f1 : ℚ
  val_acc : ℚ
  val_loss : ℚ
deriving DecidableEq

/-- Which checkpoint files were written at the end of an epoch. -/
structure SaveActions where
  saved_best : Bool
  saved_last : Bool
deriving DecidableEq

/-- End-of-epoch bookkeeping (train.py lines 325-332), transcribed: update the
running best accuracy and loss, save `best.pth` exactly on a strict F1
improvement, always save `last.pth`. -/
def epochEnd (s : BestState) (e : EpochVal) : BestState × SaveActions :=
  let acc := max s.best_val_acc e.val_acc
  let loss := min s.best_val_loss (e.val_loss : WithTop ℚ)
  if s.best_f1_score < e.val_f1 then
    ({ best_val_acc := acc, best_val_loss := loss, best_f1_score := e.val_f1 },
     { saved_best := true, saved_last := true })
  else
    ({ best_val_acc := acc, best_val_loss := loss, best_f1_score := s.best_f1_score },
     { saved_best := false, saved_last := true })

/-- C1: in every epoch the driver saves `last.pth`; it saves `best.pth` exactly
when the epoch's validation macro F1 strictly exceeds the best F1 so far
(initially 0); and the tracked best F1 and accuracy never decrease while the
tracked best loss never increases. -/
theorem c1_checkpointing (s : BestState) (e : EpochVal) :
    (epochEnd s e).2.saved_last = true
    ∧ ((epochEnd s e).2.saved_best = true ↔ s.best_f1_score < e.val_f1)
    ∧ s.best_f1_score ≤ (epochEnd s e).1.best_f1_score
    ∧ s.best_val_acc ≤ (epochEnd s e).1.best_val_acc
    ∧ (epochEnd s e).1.best_val_loss ≤ s.best_val_loss
    ∧ init_best.best_f1_score = 0 := by
  by_cases h : s.best_f1_score < e.val_f1
  · refine ⟨?_, ?_, ?_, ?_, ?_, rfl⟩ <;>
      simp [epochEnd, h, le_of_lt h, le_max_left, min_le_left]
  · refine ⟨?_, ?_, ?_, ?_, ?_, rfl⟩ <;>
      simp [epochEnd, h, le_max_left, min_le_left]

/-! ### Pretrained backbone wrappers (model.py lines 39-150)

Each wrapper class (`Resnet18`, `Resnet50`, `Alexnet`, `VGG11bn`,
`Squeezenet`, `Densenet121`) builds a torchvision backbone, calls
`set_parameter_requires_grad(self.model_ft, self.feature_extract)`, and then
replaces the final classifier layer with a fresh one of output dimension
`num_classes`; the six constructors differ only in which torchvision model is
loaded and which attribute holds the classifier.  A model is embedded as its
parameter list, split into the backbone parameters and the final-classifier
parameters, each parameter carrying its `requires_grad` flag. -/

/-- A framework parameter: an identity and its `requires_grad` flag. -/
structure TVParam where
  pid : ℕ
  requires_grad : Bool
deriving DecidableEq

/-- A torchvision model: parameters outside the final classifier, and the
parameters of the final classifier layer. -/
structure TVModel where
  backbone : List TVParam
  head : List TVParam
deriving DecidableEq

/-- Transcription of `PytorchModel.set_parameter_requires_grad`
(model.py lines 43-46): when `feature_extracting`, set `requires_grad = False`
on every parameter of the given list; otherwise do nothing. -/
def set_parameter_requires_grad (ps : List TVParam) (feature_extracting : Bool) :
    List TVParam :=
  if feature_extracting then
    ps.map (fun p => { p with requires_grad := false })
  else ps

/-- A freshly constructed layer (`nn.Linear` or `nn.Conv2d`): its parameters
require grad by default. -/
def newLayer (ids : List ℕ) : List TVParam :=
  ids.map (fun i => { pid := i, requires_grad := true })

/-- Shared constructor body of the six wrapper classes
(model.py lines 49-150): freeze (or not) every parameter of the loaded
backbone, then replace the final classifier by a fresh layer. -/
def build_pretrained_wrapper (m : TVModel) (head_ids : List ℕ)
    (feature_extract : Bool) : TVModel :=
  { backbone := set_parameter_requires_grad m.backbone feature_extract,
    head := newLayer head_ids }

/-- Parameters of a model whose `requires_grad` flag is set. -/
def trainableParams (m : TVModel) : List TVParam :=
  (m.backbone ++ m.head).filter (fun p => p.requires_grad)

/-- C7: with `feature_extract = true` every backbone parameter has
`requires_grad` set to `False` and only that flag changes, the fresh head is
the only structural change, and exactly the new head's parameters are
trainable; with `feature_extract = false` no flag is modified. -/
theorem c7_feature_extract (m : TVModel) (ids : List ℕ) :
    trainableParams (build_pretrained_wrapper m ids true) = newLayer ids
    ∧ (build_pretrained_wrapper m ids true).backbone
        = m.backbone.map (fun p => { p with requires_grad := false })
    ∧ (build_pretrained_wrapper m ids true).backbone.map (fun p => p.pid)
        = m.backbone.map (fun p => p.pid)
    ∧ (build_pretrained_wrapper m ids false).backbone = m.backbone
    ∧ (∀ b : Bool, (build_pretrained_wrapper m ids b).head = newLayer ids) := by
  refine ⟨?_, ?_, ?_, ?_, fun b => rfl⟩
  · unfold trainableParams build_pretrained_wrapper set_parameter_requires_grad newLayer
    simp [List.filter_append, List.filter_map, Function.comp_def]
  · rfl
  · unfold build_pretrained_wrapper set_parameter_requires_grad
    simp [List.map_map, Function.comp]
  · rfl

/-! ### increment_path (train.py lines 72-87)

The filesystem is modelled as the list of existing entry paths.  `glob` with
pattern `f"{path}*"` returns the existing entries that extend `path` without
crossing a directory separator.  The regular expression
`rf"%s(\d+)" % path.stem` searched over an entry is modelled by
`searchStemNum`: the leftmost occurrence of the stem followed by at least one
digit, capturing the maximal digit run.  Paths are assumed already normalised
(so `str(Path(p)) = p`) and stems are assumed free of regex metacharacters,
which holds for the run names this script builds. -/

/-- Digits of a decimal literal to its value, most significant first. -/
def digitsToNat (cs : List Char) : ℕ :=
  cs.foldl (fun a c => a * 10 + (c.toNat - 48)) 0

/-- Maximal leading digit run of a character list. -/
def takeDigits (cs : List Char) : List Char :=
  cs.takeWhile (fun c => c.isDigit)

/-- Leftmost occurrence of `stem` followed by one or more digits; the value of
the captured digit run, as `re.search` of the pattern stem-then-digits. -/
def searchStemNum (stem : List Char) : List Char → Option ℕ
  | [] => none
  | c :: rest =>
    let ds := takeDigits ((c :: rest).drop stem.length)
    if stem.isPrefixOf (c :: rest) ∧ ds ≠ [] then some (digitsToNat ds)
    else searchStemNum stem rest

/-- Final component of a path string (the part after the last slash). -/
def lastComponent (p : String) : String :=
  String.mk ((p.toList.splitOn '/').getLastD p.toList)

/-- Transcription of `pathlib.Path(...).stem` on a file name: the name without
its extension, where an extension is a dot appearing at a position that is
neither first nor last in the name. -/
def pyStemName (name : String) : String :=
  let cs := name.toList
  match (cs.reverse.findIdx? (fun c => c = '.')) with
  | none => name
  | some j =>
    let i := cs.length - 1 - j
    if 0 < i ∧ i < cs.length - 1 then String.mk (cs.take i) else name

/-- Stem of a path: `Path(p).stem`. -/
def pyStem (p : String) : String := pyStemName (lastComponent p)

/-- Whether a path exists in the modelled filesystem. -/
def pathExists (fs : List String) (p : String) : Bool := fs.contains p

/-- Transcription of `glob.glob(f"{path}*")`: existing entries that start with
`path`, the wildcard not matching a directory separator. -/
def globStar (fs : List String) (path : String) : List String :=
  fs.filter (fun e =>
    path.toList.isPrefixOf e.toList && !((e.toList.drop path.toList.length).contains '/'))

/-- Python `max` over a non-empty list of naturals (and 0 on the empty list,
which the source never queries). -/
def pyMax (l : List ℕ) : ℕ := (l.max?).getD 0

/-- Numeric suffixes captured from the numbered siblings of `path`: the glob
matches of `f"{path}*"`, searched for the stem followed by digits. -/
def numberedSiblings (fs : List String) (path : String) : List ℕ :=
  (globStar fs path).filterMap (fun d => searchStemNum (pyStem path).toList d.toList)

/-- Transcription of `increment_path` (train.py lines 72-87). -/
def increment_path (fs : List String) (path : String) (exist_ok : Bool) : String :=
  if (pathExists fs path ∧ exist_ok) ∨ ¬ pathExists fs path then path
  else
    let i := numberedSiblings fs path
    match i with
    | [] => path ++ toString 1
    | _ :: _ => path ++ toString (pyMax i + 1)

/-- C9: `increment_path` returns the path unchanged when it does not exist or
`exist_ok` holds; otherwise it appends `n`, where `n` is one more than the
largest numeric suffix among existing siblings matching stem-then-digits, or
`1` when no numbered sibling exists. -/
theorem c9_increment_path (fs : List String) (p : String) (exist_ok : Bool) :
    ((pathExists fs p = false ∨ exist_ok = true) → increment_path fs p exist_ok = p)
    ∧ (pathExists fs p = true → exist_ok = false →
        (numberedSiblings fs p = [] → increment_path fs p exist_ok = p ++ toString 1)
        ∧ (numberedSiblings fs p ≠ [] →
            ∃ m, m ∈ numberedSiblings fs p
              ∧ (∀ x ∈ numberedSiblings fs p, x ≤ m)
              ∧ increment_path fs p exist_ok = p ++ toString (m + 1))) := by
  constructor
  · intro h
    unfold increment_path
    rcases h with h | h
    · simp [h]
    · simp [h]
  · intro hex hok
    constructor
    · intro hempty
      unfold increment_path
      simp [hex, hok, hempty]
    · intro hne
      refine ⟨pyMax (numberedSiblings fs p), ?_, ?_, ?_⟩
      · rcases hmax : (numberedSiblings fs p).max? with _ | m
        · exact absurd (List.max?_eq_none_iff.mp hmax) hne
        · have := List.max?_mem (fun a b => max_choice a b) hmax
          simpa [pyMax, hmax] using this
      · intro x hx
        rcases hmax : (numberedSiblings fs p).max? with _ | m
        · exact absurd (List.max?_eq_none_iff.mp hmax) hne
        · have := (List.max?_le_iff (fun a b c => max_le_iff) hmax (x := m)).mp le_rfl x hx
          simpa [pyMax, hmax] using this
      · unfold increment_path
        rcases hcase : numberedSiblings fs p with _ | ⟨a, l⟩
        · exact absurd hcase hne
        · simp [hex, hok, hcase]

/-! ### k-fold construction delegation (train.py lines 90-127, 183-185, 330-332)

`train(k, data_dir, model_dir, args)` computes
`save_dir = increment_path(os.path.join(model_dir, 'k'+str(k), args.name))`,
constructs the dataset with `kfold=args.kfold`, `k=args.k`,
`age_parameter=args.data_selection`, takes
`train_set, val_set = dataset.split_dataset()`, and writes every output of the
run (tensorboard logs, `config.json`, `best.pth`, `last.pth`) under
`save_dir`. -/

/-- Command-line arguments of the training driver that the embedded fragments
consult. -/
structure Args where
  criterion : String
  multi_label : String
  mixp : ℚ
  kfold : ℕ
  k : ℕ
  name : String
  data_selection : String
deriving DecidableEq

/-- Keyword arguments passed to the dataset constructor
(train.py lines 102-107). -/
structure DatasetCtorArgs where
  data_dir : String
  kfold : ℕ
  k : ℕ
  age_parameter : String
deriving DecidableEq

/-- Output paths of one training run. -/
structure TrainPaths where
  save_dir : String
  log_dir : String
  config_path : String
  best_path : String
  last_path : String
deriving DecidableEq

/-- Model of `os.path.join` on the relative components this script joins. -/
def os_path_join (a b : String) : String := a ++ "/" ++ b

/-- Construction-delegation part of `train` (train.py lines 90-127 together
with the output locations at lines 183-185 and 330-332): the dataset
constructor arguments, the derived train and validation sets, and the paths
written by the run.  The split itself is performed by the dataset class in the
absent `dataset.py`, so the pair it returns is an oracle input. -/
def train_setup {σ : Type} (fs : List String) (k : ℕ)
    (data_dir model_dir : String) (args : Args) (split : σ × σ) :
    DatasetCtorArgs × (σ × σ) × TrainPaths :=
  let save_dir :=
    increment_path fs (os_path_join (os_path_join model_dir ("k" ++ toString k)) args.name) false
  ({ data_dir := data_dir, kfold := args.kfold, k := args.k,
     age_parameter := args.data_selection },
   (split.1, split.2),
   { save_dir := save_dir,
     log_dir := save_dir,
     config_path := save_dir ++ "/config.json",
     best_path := save_dir ++ "/best.pth",
     last_path := save_dir ++ "/last.pth" })

/-- C6: the driver passes `args.kfold` and `args.k` to the dataset
constructor, takes the train and validation sets from the dataset's split, and
roots every output of the run at
`increment_path(model_dir/k{k}/args.name)`. -/
theorem c6_kfold_delegation {σ : Type} (fs : List String) (k : ℕ)
    (data_dir model_dir : String) (args : Args) (split : σ × σ) :
    (train_setup fs k data_dir model_dir args split).1.kfold = args.kfold
    ∧ (train_setup fs k data_dir model_dir args split).1.k = args.k
    ∧ (train_setup fs k data_dir model_dir args split).1.data_dir = data_dir
    ∧ (train_setup fs k data_dir model_dir args split).2.1 = (split.1, split.2)
    ∧ (train_setup fs k data_dir model_dir args split).2.2.save_dir
        = increment_path fs (model_dir ++ "/" ++ ("k" ++ toString k) ++ "/" ++ args.name) false
    ∧ (∃ t, (train_setup fs k data_dir model_dir args split).2.2.config_path
        = (train_setup fs k data_dir model_dir args split).2.2.save_dir ++ t)
    ∧ (∃ t, (train_setup fs k data_dir model_dir args split).2.2.best_path
        = (train_setup fs k data_dir model_dir args split).2.2.save_dir ++ t)
    ∧ (∃ t, (train_setup fs k data_dir model_dir args split).2.2.last_path
        = (train_setup fs k data_dir model_dir args split).2.2.save_dir ++ t)
    ∧ (train_setup fs k data_dir model_dir args split).2.2.log_dir
        = (train_setup fs k data_dir model_dir args split).2.2.save_dir := by
  exact ⟨rfl, rfl, rfl, rfl, rfl, ⟨"/config.json", rfl⟩, ⟨"/best.pth", rfl⟩,
    ⟨"/last.pth", rfl⟩, rfl⟩

/-! ### Training step (train.py lines 109-114, 159-166, 202-248)

One iteration of the training loop over a batch.  Label tensors are lists of
integers, logits are lists of rows of rationals.  A dataset batch carries the
label dictionary with keys `mask`, `gender`, `age`, `label`; depending on the
configuration the Python variables `labels`, `outs` and `preds` hold either a
tensor or a dict, modelled by sum types.  External behaviour (the model
forward pass, the loss functions from `loss.py`, `encode_multi_class` and
`mixup`/`cutmix` from the absent `dataset.py`, the `np.random.random()` draw)
is supplied through the oracle record `Ext`. -/

/-- One-dimensional integer tensor. -/
abbrev Tensor1 := List ℤ

/-- Two-dimensional rational tensor (rows of logits). -/
abbrev Logits := List (List ℚ)

/-- Label dictionary returned by the dataset for one batch. -/
structure LabelDict where
  mask : Tensor1
  gender : Tensor1
  age : Tensor1
  label : Tensor1
deriving DecidableEq

/-- Value of the Python variable `labels`: a tensor or the label dict. -/
inductive PyLabels where
  | tensor (t : Tensor1)
  | dict (d : LabelDict)
deriving DecidableEq

/-- Value of the Python variable `outs`: a logits tensor, or a dict of logits
per task for a multi-head model. -/
inductive PyOuts where
  | tensor (t : Logits)
  | dict (mask gender age : Logits)
deriving DecidableEq

/-- Result of `data_mix(inputs, labels, device)`. -/
structure MixOut (ι : Type) where
  inputs2 : ι
  lam : ℚ
  target_a : PyLabels
  target_b : PyLabels

/-- External-framework behaviour consumed by one batch step. -/
structure Ext (ι : Type) where
  model : ι → PyOuts
  crit : PyOuts → PyLabels → ℚ
  loss_func : Logits → Tensor1 → ℚ
  encode : Tensor1 → Tensor1 → Tensor1 → Tensor1
  data_mix : ι → PyLabels → MixOut ι
  draw : ℚ

/-- Error raised by `criterion(...)` when `args.criterion == 'multi_label'`:
only `loss_func` was bound at train.py lines 168-172. -/
def unboundCriterionMsg : String :=
  "UnboundLocalError: local variable criterion referenced before assignment"

/-- Error raised by indexing a tensor with a string key. -/
def tensorStrIndexMsg : String :=
  "TypeError: only integers and slices are valid tensor indices, not str"

/-- Error raised by `torch.argmax` on a dict. -/
def argmaxDictMsg : String :=
  "TypeError: argmax expected a tensor argument"

/-- Error raised by `.to(device)` on a dict. -/
def dictNoToMsg : String :=
  "AttributeError: dict object has no attribute to"

/-- Transcription of train.py lines 109-114: classes per configured task. -/
def num_classes (args : Args) : ℕ :=
  if args.multi_label = "mask" ∨ args.multi_label = "age" then 3
  else if args.multi_label = "gender" then 2
  else 18

/-- Transcription of the label selection at train.py lines 205-212 (also
278-285): outside multi-label criterion mode, pick the configured task's
labels from the dict. -/
def select_task_labels (args : Args) (d : LabelDict) : PyLabels :=
  if args.criterion ≠ "multi_label" then
    if args.multi_label = "mask" then PyLabels.tensor d.mask
    else if args.multi_label = "age" then PyLabels.tensor d.age
    else if args.multi_label = "gender" then PyLabels.tensor d.gender
    else PyLabels.dict d
  else PyLabels.dict d

/-- Index of the first maximal entry of a row, as `torch.argmax` along the
last dimension. -/
def argmaxIdx (row : List ℚ) : ℤ :=
  (row.foldl
    (fun acc x =>
      if acc.2.1 < x then (acc.2.2, x, acc.2.2 + 1) else (acc.1, acc.2.1, acc.2.2 + 1))
    ((0 : ℤ), row.headD 0, (0 : ℤ))).1

/-- Row-wise argmax of a logits tensor. -/
def argmaxRows (t : Logits) : Tensor1 := t.map argmaxIdx

/-- Transcription of `multi_criterion` (train.py lines 159-166) on a dict of
outputs already split into its three entries. -/
def multi_criterion (lf : Logits → Tensor1 → ℚ) (om og oa : Logits)
    (pics : LabelDict) : ℚ :=
  0.4 * lf oa pics.age + 0.3 * lf og pics.gender + 0.3 * lf om pics.mask

/-- Number of positions where two label tensors agree
(`(a == b).sum().item()`). -/
def tensorEqCount (a b : Tensor1) : ℕ :=
  ((a.zip b).filter (fun p => p.1 == p.2)).length

/-- Observable outcome of one training-loop iteration. -/
structure StepOutcome (ι : Type) where
  mixed : Bool
  inputs_used : Option ι
  loss : Option ℚ
  backward_done : Bool
  optimizer_stepped : Bool
  loss_value_add : ℚ
  matches_add : ℕ
  error : Option String

/-- Transcription of train.py lines 233-248: per-task or single-task
prediction, the unconditional `encode_multi_class` call at line 242 (which
indexes `preds` with string keys), backpropagation, optimizer step and
accumulator updates. -/
def stepTail {ι : Type} (args : Args) (ext : Ext ι) (inputs_used : Option ι)
    (mixed : Bool) (_labels0 : LabelDict) (labels1 : PyLabels) (outs : PyOuts)
    (lossIn : Option ℚ) : StepOutcome ι :=
  if args.criterion = "multi_label" then
    match outs with
    | PyOuts.tensor _ =>
      { mixed := mixed, inputs_used := inputs_used, loss := lossIn,
        backward_done := false, optimizer_stepped := false,
        loss_value_add := 0, matches_add := 0, error := some tensorStrIndexMsg }
    | PyOuts.dict om og oa =>
      match labels1 with
      | PyLabels.tensor _ =>
        { mixed := mixed, inputs_used := inputs_used, loss := lossIn,
          backward_done := false, optimizer_stepped := false,
          loss_value_add := 0, matches_add := 0, error := some tensorStrIndexMsg }
      | PyLabels.dict d =>
        let loss := multi_criterion ext.loss_func om og oa d
        let preds := ext.encode (argmaxRows om) (argmaxRows og) (argmaxRows oa)
        { mixed := mixed, inputs_used := inputs_used, loss := some loss,
          backward_done := true, optimizer_stepped := true,
          loss_value_add := loss, matches_add := tensorEqCount preds d.label,
          error := none }
  else
    match outs with
    | PyOuts.dict _ _ _ =>
      { mixed := mixed, inputs_used := inputs_used, loss := lossIn,
        backward_done := false, optimizer_stepped := false,
        loss_value_add := 0, matches_add := 0, error := some argmaxDictMsg }
    | PyOuts.tensor _ =>
      { mixed := mixed, inputs_used := inputs_used, loss := lossIn,
        backward_done := false, optimizer_stepped := false,
        loss_value_add := 0, matches_add := 0, error := some tensorStrIndexMsg }

/-- Transcription of one iteration of the training loop
(train.py lines 202-248). -/
def trainStep {ι : Type} (args : Args) (ext : Ext ι) (inputs : ι)
    (labels0 : LabelDict) : StepOutcome ι :=
  if args.mixp ≠ 0 then
    if ext.draw < args.mixp then
      let mo := ext.data_mix inputs (select_task_labels args labels0)
      if args.criterion = "multi_label" then
        { mixed := true, inputs_used := some mo.inputs2, loss := none,
          backward_done := false, optimizer_stepped := false,
          loss_value_add := 0, matches_add := 0, error := some unboundCriterionMsg }
      else
        stepTail args ext (some mo.inputs2) true labels0
          (select_task_labels args labels0) (ext.model mo.inputs2)
          (some (ext.crit (ext.model mo.inputs2) mo.target_a * mo.lam
            + ext.crit (ext.model mo.inputs2) mo.target_b * (1 - mo.lam)))
    else
      match select_task_labels args labels0 with
      | PyLabels.dict _ =>
        { mixed := false, inputs_used := none, loss := none,
          backward_done := false, optimizer_stepped := false,
          loss_value_add := 0, matches_add := 0, error := some dictNoToMsg }
      | PyLabels.tensor t =>
        if args.criterion = "multi_label" then
          { mixed := false, inputs_used := some inputs, loss := none,
            backward_done := false, optimizer_stepped := false,
            loss_value_add := 0, matches_add := 0, error := some unboundCriterionMsg }
        else
          stepTail args ext (some inputs) false labels0 (PyLabels.tensor t)
            (ext.model inputs)
            (some (ext.crit (ext.model inputs) (PyLabels.tensor t)))
  else
    if args.criterion = "multi_label" then
      stepTail args ext (some inputs) false labels0
        (select_task_labels args labels0) (ext.model inputs) none
    else
      match select_task_labels args labels0 with
      | PyLabels.dict _ =>
        { mixed := false, inputs_used := some inputs, loss := none,
          backward_done := false, optimizer_stepped := false,
          loss_value_add := 0, matches_add := 0, error := some dictNoToMsg }
      | PyLabels.tensor t =>
        stepTail args ext (some inputs) false labels0 (PyLabels.tensor t)
          (ext.model inputs) none

/-- Outside multi-label criterion mode the tail of the step always fails at
line 242 and never backpropagates, whatever the shapes are, preserving the
trace recorded so far. -/
theorem stepTail_single {ι : Type} (args : Args) (ext : Ext ι)
    (iu : Option ι) (mx : Bool) (labels0 : LabelDict) (labels1 : PyLabels)
    (outs : PyOuts) (li : Option ℚ) (hcrit : args.criterion ≠ "multi_label") :
    (stepTail args ext iu mx labels0 labels1 outs li).error.isSome = true
    ∧ (stepTail args ext iu mx labels0 labels1 outs li).backward_done = false
    ∧ (stepTail args ext iu mx labels0 labels1 outs li).optimizer_stepped = false
    ∧ (stepTail args ext iu mx labels0 labels1 outs li).mixed = mx
    ∧ (stepTail args ext iu mx labels0 labels1 outs li).inputs_used = iu
    ∧ (stepTail args ext iu mx labels0 labels1 outs li).loss = li := by
  unfold stepTail
  simp only [if_neg hcrit]
  cases outs <;> simp

/-- In single-task mode the selected labels form a tensor of the configured
task. -/
theorem select_single (args : Args) (d : LabelDict)
    (hcrit : args.criterion ≠ "multi_label")
    (hml : args.multi_label = "mask" ∨ args.multi_label = "age"
      ∨ args.multi_label = "gender") :
    ∃ t, select_task_labels args d = PyLabels.tensor t := by
  rcases hml with h | h | h
  · exact ⟨d.mask, by simp [select_task_labels, hcrit, h]⟩
  · exact ⟨d.age, by simp [select_task_labels, hcrit, h]⟩
  · exact ⟨d.gender, by simp [select_task_labels, hcrit, h]⟩

/-- C2: with `--multi_label` one of mask/age/gender and a single-task
criterion, the driver builds the model with 3, 3, 2 classes respectively and
selects that task's labels from the batch; but the training step never
completes, because line 242 indexes the prediction tensor with a string key
before `loss.backward()` and `optimizer.step()` can run. -/
theorem c2_single_task_step (ι : Type) (args : Args) (ext : Ext ι)
    (inputs : ι) (labels0 : LabelDict)
    (hcrit : args.criterion ≠ "multi_label")
    (hml : args.multi_label = "mask" ∨ args.multi_label = "age"
      ∨ args.multi_label = "gender") :
    (args.multi_label = "mask" →
      num_classes args = 3
      ∧ select_task_labels args labels0 = PyLabels.tensor labels0.mask)
    ∧ (args.multi_label = "age" →
      num_classes args = 3
      ∧ select_task_labels args labels0 = PyLabels.tensor labels0.age)
    ∧ (args.multi_label = "gender" →
      num_classes args = 2
      ∧ select_task_labels args labels0 = PyLabels.tensor labels0.gender)
    ∧ (trainStep args ext inputs labels0).error.isSome = true
    ∧ (trainStep args ext inputs labels0).backward_done = false
    ∧ (trainStep args ext inputs labels0).optimizer_stepped = false := by
  obtain ⟨t, ht⟩ := select_single args labels0 hcrit hml
  have hstep : (trainStep args ext inputs labels0).error.isSome = true
      ∧ (trainStep args ext inputs labels0).backward_done = false
      ∧ (trainStep args ext inputs labels0).optimizer_stepped = false := by
    unfold trainStep
    by_cases hmz : args.mixp ≠ 0
    · by_cases hd : ext.draw < args.mixp
      · simp only [if_pos hmz, if_pos hd, if_neg hcrit]
        obtain ⟨e, b, o, _⟩ := stepTail_single args ext _ true labels0 _ _ _ hcrit
        exact ⟨e, b, o⟩
      · simp only [if_pos hmz, if_neg hd, ht, if_neg hcrit]
        obtain ⟨e, b, o, _⟩ := stepTail_single args ext _ false labels0 _ _ _ hcrit
        exact ⟨e, b, o⟩
    · simp only [if_neg hmz, if_neg hcrit, ht]
      obtain ⟨e, b, o, _⟩ := stepTail_single args ext _ false labels0 _ _ _ hcrit
      exact ⟨e, b, o⟩
  refine ⟨?_, ?_, ?_, hstep⟩
  · intro h
    exact ⟨by simp [num_classes, h], by simp [select_task_labels, hcrit, h]⟩
  · intro h
    exact ⟨by simp [num_classes, h], by simp [select_task_labels, hcrit, h]⟩
  · intro h
    exact ⟨by simp [num_classes, h], by simp [select_task_labels, hcrit, h]⟩

/-- Every arm of the step tail leaves the recorded mixing flag and forward
inputs untouched, in either criterion mode. -/
theorem stepTail_trace {ι : Type} (args : Args) (ext : Ext ι)
    (iu : Option ι) (mx : Bool) (labels0 : LabelDict) (labels1 : PyLabels)
    (outs : PyOuts) (li : Option ℚ) :
    (stepTail args ext iu mx labels0 labels1 outs li).mixed = mx
    ∧ (stepTail args ext iu mx labels0 labels1 outs li).inputs_used = iu := by
  unfold stepTail
  by_cases h : args.criterion = "multi_label"
  · rw [if_pos h]
    cases outs with
    | tensor t => exact ⟨rfl, rfl⟩
    | dict m g a =>
      cases labels1 with
      | tensor t => exact ⟨rfl, rfl⟩
      | dict d => exact ⟨rfl, rfl⟩
  · rw [if_neg h]
    cases outs with
    | tensor t => exact ⟨rfl, rfl⟩
    | dict m g a => exact ⟨rfl, rfl⟩

/-- C3 (amended): `mixp = 0` means the mixing function is never applied and
the forward pass consumes the unmodified inputs, and a nonzero `mixp` mixes a
batch exactly when the fresh uniform draw is below `mixp` — both of these in
every criterion mode; the mixed loss is the lam-weighted combination of the
criterion on the two mixed targets in runs whose `--criterion` is not
`multi_label` (with `--criterion multi_label` a mixed batch instead raises on
the unbound local `criterion` at line 221; see the counterexample). -/
theorem c3_mixing (ι : Type) (args : Args) (ext : Ext ι) (inputs : ι)
    (labels0 : LabelDict) :
    (args.mixp = 0 →
      (trainStep args ext inputs labels0).mixed = false
      ∧ (trainStep args ext inputs labels0).inputs_used = some inputs)
    ∧ (args.mixp ≠ 0 →
      ((trainStep args ext inputs labels0).mixed = true ↔ ext.draw < args.mixp))
    ∧ (args.criterion ≠ "multi_label" → args.mixp ≠ 0 → ext.draw < args.mixp →
      (trainStep args ext inputs labels0).loss =
        some (ext.crit (ext.model (ext.data_mix inputs (select_task_labels args labels0)).inputs2)
                (ext.data_mix inputs (select_task_labels args labels0)).target_a
              * (ext.data_mix inputs (select_task_labels args labels0)).lam
            + ext.crit (ext.model (ext.data_mix inputs (select_task_labels args labels0)).inputs2)
                (ext.data_mix inputs (select_task_labels args labels0)).target_b
              * (1 - (ext.data_mix inputs (select_task_labels args labels0)).lam))) := by
  refine ⟨?_, ?_, ?_⟩
  · intro hz
    have hmz : ¬ args.mixp ≠ 0 := by simpa using hz
    unfold trainStep
    simp only [if_neg hmz]
    by_cases hc : args.criterion = "multi_label"
    · rw [if_pos hc]
      exact stepTail_trace args ext (some inputs) false labels0
        (select_task_labels args labels0) (ext.model inputs) none
    · rw [if_neg hc]
      rcases hsel : select_task_labels args labels0 with t | d
      · exact stepTail_trace args ext (some inputs) false labels0
          (PyLabels.tensor t) (ext.model inputs) none
      · exact ⟨rfl, rfl⟩
  · intro hmz
    by_cases hd : ext.draw < args.mixp
    · unfold trainStep
      simp only [if_pos hmz, if_pos hd]
      by_cases hc : args.criterion = "multi_label"
      · rw [if_pos hc]
        simp [hd]
      · rw [if_neg hc]
        have ht := stepTail_trace args ext
          (some (ext.data_mix inputs (select_task_labels args labels0)).inputs2) true labels0
          (select_task_labels args labels0)
          (ext.model (ext.data_mix inputs (select_task_labels args labels0)).inputs2)
          (some (ext.crit (ext.model (ext.data_mix inputs (select_task_labels args labels0)).inputs2)
                  (ext.data_mix inputs (select_task_labels args labels0)).target_a
                * (ext.data_mix inputs (select_task_labels args labels0)).lam
              + ext.crit (ext.model (ext.data_mix inputs (select_task_labels args labels0)).inputs2)
                  (ext.data_mix inputs (select_task_labels args labels0)).target_b
                * (1 - (ext.data_mix inputs (select_task_labels args labels0)).lam)))
        simp [ht.1, hd]
    · unfold trainStep
      simp only [if_pos hmz, if_neg hd]
      rcases hsel : select_task_labels args labels0 with t | d
      · dsimp only
        by_cases hc : args.criterion = "multi_label"
        · rw [if_pos hc]
          simp [hd]
        · rw [if_neg hc]
          have ht := stepTail_trace args ext (some inputs) false labels0
            (PyLabels.tensor t) (ext.model inputs)
            (some (ext.crit (ext.model inputs) (PyLabels.tensor t)))
          simp [ht.1, hd]
      · simp [hd]
  · intro hcrit hmz hd
    unfold trainStep
    simp only [if_pos hmz, if_pos hd, if_neg hcrit]
    unfold stepTail
    simp only [if_neg hcrit]
    cases ext.model (ext.data_mix inputs (select_task_labels args labels0)).inputs2 <;> simp

/-! ### Validation loop (train.py lines 41-45 and 266-341)

Per batch the loop selects labels (lines 278-286), runs the model, computes
loss and predictions, and appends to `val_loss_items`, `val_acc_items`,
`pred_tensor` and `target_tensor`.  The leftover block at lines 307-313 runs
unconditionally: in multi-label criterion mode line 307 evaluates the unbound
local `criterion`, and in single-task mode line 313 appends the target tensor
a second time (after the append at line 305).  At the end of the epoch
`f1_score` is called on the concatenations (line 322), and sklearn rejects
inputs with inconsistent numbers of samples. -/

/-- Message of the assertion at train.py line 43. -/
def assertionErrorMsg : String := "AssertionError"

/-- Transcription of the guard of `grid_image` (train.py lines 41-43): the
figure is produced only when `n <= batch_size`. -/
def grid_image_assert (batch_size n : ℕ) : Except String Unit :=
  if n ≤ batch_size then Except.ok () else Except.error assertionErrorMsg

/-- One validation batch: the images (with their count) and the labels. -/
structure ValBatchData (ι : Type) where
  inputs : ι
  nimages : ℕ
  labels : LabelDict

/-- Accumulators of the validation loop (train.py lines 270-274). -/
structure ValState where
  val_loss_items : List ℚ
  val_acc_items : List ℕ
  target_tensor : List Tensor1
  pred_tensor : List Tensor1
  figure_set : Bool
deriving DecidableEq

/-- Initial validation accumulators. -/
def initValState : ValState := ⟨[], [], [], [], false⟩

/-- Transcription of one iteration of the validation loop
(train.py lines 275-320).  In multi-label criterion mode the iteration raises
before its appends matter: at line 293 for a tensor-output model, otherwise at
line 307 where the unbound local `criterion` is read.  In single-task mode the
target tensor is appended twice, at lines 305 and 313. -/
def valStep {ι : Type} (args : Args) (ext : Ext ι) (s : ValState)
    (b : ValBatchData ι) : Except String ValState :=
  if args.criterion = "multi_label" then
    match ext.model b.inputs with
    | PyOuts.tensor _ => Except.error tensorStrIndexMsg
    | PyOuts.dict _ _ _ => Except.error unboundCriterionMsg
  else
    match select_task_labels args b.labels with
    | PyLabels.dict _ => Except.error dictNoToMsg
    | PyLabels.tensor lab =>
      match ext.model b.inputs with
      | PyOuts.dict _ _ _ => Except.error argmaxDictMsg
      | PyOuts.tensor t =>
        let preds := argmaxRows t
        let loss_item := ext.crit (PyOuts.tensor t) (PyLabels.tensor lab)
        let acc_item := tensorEqCount lab preds
        let s2 : ValState :=
          { val_loss_items := s.val_loss_items ++ [loss_item],
            val_acc_items := s.val_acc_items ++ [acc_item],
            target_tensor := s.target_tensor ++ [lab, lab],
            pred_tensor := s.pred_tensor ++ [preds],
            figure_set := s.figure_set }
        if s.figure_set then Except.ok s2
        else
          match grid_image_assert b.nimages 16 with
          | Except.error e => Except.error e
          | Except.ok _ => Except.ok { s2 with figure_set := true }

/-- Validation loop over the loader's batches. -/
def valRun {ι : Type} (args : Args) (ext : Ext ι) :
    List (ValBatchData ι) → ValState → Except String ValState
  | [], s => Except.ok s
  | b :: bs, s =>
    match valStep args ext s b with
    | Except.error e => Except.error e
    | Except.ok s' => valRun args ext bs s'

/-- Per-class F1 used by sklearn: 2tp over 2tp + fp + fn, 0 on an empty
denominator. -/
def f1ForLabel (y_true y_pred : Tensor1) (c : ℤ) : ℚ :=
  let pairs := y_true.zip y_pred
  let tp : ℕ := pairs.countP (fun p => p.1 == c && p.2 == c)
  let fp : ℕ := pairs.countP (fun p => !(p.1 == c) && p.2 == c)
  let fn : ℕ := pairs.countP (fun p => p.1 == c && !(p.2 == c))
  if 2 * tp + fp + fn = 0 then 0
  else ((2 * tp : ℕ) : ℚ) / ((2 * tp + fp + fn : ℕ) : ℚ)

/-- Macro F1: unweighted mean of per-class F1 over the labels present. -/
def macroF1 (y_true y_pred : Tensor1) : ℚ :=
  let ls := (y_true ++ y_pred).dedup
  (ls.map (f1ForLabel y_true y_pred)).sum / (ls.length : ℚ)

/-- Message of the sklearn consistency check on input lengths. -/
def inconsistentSamplesMsg : String :=
  "ValueError: found input variables with inconsistent numbers of samples"

/-- Model of `sklearn.metrics.f1_score(..., average=macro)`: rejects inputs
of different lengths, otherwise computes the macro F1. -/
def sklearn_f1_macro (y_true y_pred : Tensor1) : Except String ℚ :=
  if y_true.length = y_pred.length then Except.ok (macroF1 y_true y_pred)
  else Except.error inconsistentSamplesMsg

/-- Metrics logged under Val/loss, Val/accuracy and Val/F1. -/
structure ValMetrics where
  val_f1 : ℚ
  val_loss : ℚ
  val_acc : ℚ
deriving DecidableEq

/-- Transcription of the epoch-level validation computation
(train.py lines 267-341): run the loop, then
`val_f1 = f1_score(cat(target_tensor), cat(pred_tensor), average=macro)`,
`val_loss = sum(val_loss_items) / len(val_loader)`,
`val_acc = sum(val_acc_items) / len(val_set)`. -/
def valEpoch {ι : Type} (args : Args) (ext : Ext ι)
    (batches : List (ValBatchData ι)) (val_set_size : ℕ) :
    Except String ValMetrics :=
  match valRun args ext batches initValState with
  | Except.error e => Except.error e
  | Except.ok s =>
    match sklearn_f1_macro s.target_tensor.flatten s.pred_tensor.flatten with
    | Except.error e => Except.error e
    | Except.ok f1 =>
      Except.ok
        { val_f1 := f1,
          val_loss := s.val_loss_items.sum / (batches.length : ℚ),
          val_acc := ((s.val_acc_items.sum : ℕ) : ℚ) / (val_set_size : ℚ) }

/-- A successful single-task validation iteration appends the target tensor
twice and the prediction tensor once. -/
theorem valStep_ok_single {ι : Type} (args : Args) (ext : Ext ι)
    (s s' : ValState) (b : ValBatchData ι)
    (hcrit : args.criterion ≠ "multi_label")
    (h : valStep args ext s b = Except.ok s') :
    ∃ lab t, select_task_labels args b.labels = PyLabels.tensor lab
      ∧ ext.model b.inputs = PyOuts.tensor t
      ∧ s'.target_tensor = s.target_tensor ++ [lab, lab]
      ∧ s'.pred_tensor = s.pred_tensor ++ [argmaxRows t] := by
  unfold valStep at h
  rw [if_neg hcrit] at h
  cases hsel : select_task_labels args b.labels with
  | dict d => rw [hsel] at h; cases h
  | tensor lab =>
    rw [hsel] at h
    cases hm : ext.model b.inputs with
    | dict m g a => rw [hm] at h; cases h
    | tensor t =>
      rw [hm] at h
      dsimp only at h
      by_cases hf : s.figure_set
      · rw [if_pos hf] at h
        injection h with h2
        subst h2
        exact ⟨lab, t, rfl, rfl, rfl, rfl⟩
      · rw [if_neg hf] at h
        cases hg : grid_image_assert b.nimages 16 with
        | error e => rw [hg] at h; cases h
        | ok u =>
          rw [hg] at h
          injection h with h2
          subst h2
          exact ⟨lab, t, rfl, rfl, rfl, rfl⟩

/-- Flattened lengths of the accumulated targets and predictions after a
successful single-task validation run: targets grow twice as fast. -/
theorem valRun_ok_lengths {ι : Type} (args : Args) (ext : Ext ι)
    (hcrit : args.criterion ≠ "multi_label") :
    ∀ (batches : List (ValBatchData ι)) (s s' : ValState),
    valRun args ext batches s = Except.ok s' →
    (∀ b ∈ batches, ∀ t lab, ext.model b.inputs = PyOuts.tensor t →
      select_task_labels args b.labels = PyLabels.tensor lab → t.length = lab.length) →
    (∀ b ∈ batches, ∀ lab,
      select_task_labels args b.labels = PyLabels.tensor lab → lab ≠ []) →
    ∃ K : ℕ,
      s'.target_tensor.flatten.length = s.target_tensor.flatten.length + 2 * K
      ∧ s'.pred_tensor.flatten.length = s.pred_tensor.flatten.length + K
      ∧ (batches ≠ [] → 1 ≤ K) := by
  intro batches
  induction batches with
  | nil =>
    intro s s' h _ _
    refine ⟨0, ?_, ?_, fun hc => absurd rfl hc⟩ <;> (cases h; simp)
  | cons b bs ih =>
    intro s s' h hshape hlab
    unfold valRun at h
    cases hstep : valStep args ext s b with
    | error e => rw [hstep] at h; cases h
    | ok s1 =>
      rw [hstep] at h
      obtain ⟨lab, t, hsel, hm, ht, hp⟩ :=
        valStep_ok_single args ext s s1 b hcrit hstep
      obtain ⟨K, h1, h2, _⟩ := ih s1 s' h
        (fun x hx => hshape x (List.mem_cons_of_mem b hx))
        (fun x hx => hlab x (List.mem_cons_of_mem b hx))
      have hlen : t.length = lab.length :=
        hshape b (List.mem_cons_self b bs) t lab hm hsel
      have hne : lab ≠ [] := hlab b (List.mem_cons_self b bs) lab hsel
      have hpos : 1 ≤ lab.length := List.length_pos.mpr hne
      refine ⟨K + lab.length, ?_, ?_, fun _ => by omega⟩
      · rw [h1, ht]
        simp [List.flatten_append]
        omega
      · rw [h2, hp]
        simp [List.flatten_append, argmaxRows, hlen]
        omega

/-- C4: the validation loop never reaches its metric logging: with the
multi-label criterion the first batch raises (unbound local `criterion` at
line 307, or string-indexing a tensor at line 293); in single-task mode every
batch appends its targets twice but its predictions once, so the `f1_score`
call at line 322 rejects the concatenations.  `val_loss` and `val_acc` as the
claim states them are computed only after that point. -/
theorem c4_val_metrics (ι : Type) (args : Args) (ext : Ext ι)
    (batches : List (ValBatchData ι)) (val_set_size : ℕ)
    (hmode : args.criterion = "multi_label"
      ∨ (args.criterion ≠ "multi_label"
        ∧ (args.multi_label = "mask" ∨ args.multi_label = "age"
          ∨ args.multi_label = "gender")))
    (hne : batches ≠ [])
    (hshape : ∀ b ∈ batches, ∀ t lab, ext.model b.inputs = PyOuts.tensor t →
      select_task_labels args b.labels = PyLabels.tensor lab → t.length = lab.length)
    (hlab : ∀ b ∈ batches, ∀ lab,
      select_task_labels args b.labels = PyLabels.tensor lab → lab ≠ []) :
    ∃ e, valEpoch args ext batches val_set_size = Except.error e := by
  rcases hmode with hmulti | ⟨hcrit, _⟩
  · cases batches with
    | nil => exact absurd rfl hne
    | cons b bs =>
      cases hm : ext.model b.inputs with
      | tensor t =>
        exact ⟨tensorStrIndexMsg, by simp [valEpoch, valRun, valStep, hmulti, hm]⟩
      | dict m g a =>
        exact ⟨unboundCriterionMsg, by simp [valEpoch, valRun, valStep, hmulti, hm]⟩
  · cases hrun : valRun args ext batches initValState with
    | error e =>
      refine ⟨e, ?_⟩
      unfold valEpoch
      rw [hrun]
    | ok s =>
      obtain ⟨K, h1, h2, hK⟩ :=
        valRun_ok_lengths args ext hcrit batches initValState s hrun hshape hlab
      have hK1 := hK hne
      have hlen : ¬ s.target_tensor.flatten.length = s.pred_tensor.flatten.length := by
        rw [h1, h2]
        simp only [initValState, List.flatten_nil, List.length_nil]
        omega
      refine ⟨inconsistentSamplesMsg, ?_⟩
      unfold valEpoch
      rw [hrun]
      dsimp only
      unfold sklearn_f1_macro
      rw [if_neg hlen]

/-- C10: `grid_image` raises an AssertionError instead of producing a figure
whenever the batch holds fewer than `n` images, and succeeds at its default
`n = 16` on batches of at least 16 images; the validation loop calls it with
`n = 16` on the first batch, so a first single-task validation batch with
fewer than 16 images aborts the iteration with the AssertionError. -/
theorem c10_grid_image (ι : Type) (args : Args) (ext : Ext ι)
    (b : ValBatchData ι) (hcrit : args.criterion ≠ "multi_label")
    (hsel : ∃ lab, select_task_labels args b.labels = PyLabels.tensor lab)
    (houts : ∃ t, ext.model b.inputs = PyOuts.tensor t)
    (hsize : b.nimages < 16) :
    (∀ m n : ℕ, m < n → grid_image_assert m n = Except.error assertionErrorMsg)
    ∧ (∀ m : ℕ, 16 ≤ m → grid_image_assert m 16 = Except.ok ())
    ∧ valStep args ext initValState b = Except.error assertionErrorMsg := by
  obtain ⟨lab, hsel⟩ := hsel
  obtain ⟨t, houts⟩ := houts
  refine ⟨?_, ?_, ?_⟩
  · intro m n hmn
    unfold grid_image_assert
    rw [if_neg (by omega)]
  · intro m hm
    unfold grid_image_assert
    rw [if_pos hm]
  · unfold valStep
    rw [if_neg hcrit, hsel, houts]
    have hg : grid_image_assert b.nimages 16 = Except.error assertionErrorMsg := by
      unfold grid_image_assert
      rw [if_neg (by omega)]
    simp only [initValState, Bool.false_eq_true, if_false, hg]

/-! ### Interval logging of the training loop (train.py lines 200-262)

`loss_value` and `matches` accumulate per batch; when `(idx + 1) %
args.log_interval == 0` the driver logs `Train/loss = loss_value /
log_interval` and `Train/accuracy = matches / batch_size / log_interval` at
global step `epoch * len(train_loader) + idx` and resets both accumulators.
The per-batch contributions to the two accumulators are taken as inputs; the
embedding folds over the epoch's batches. -/

/-- One record written to the tensorboard logger by the training loop. -/
structure LogRec where
  train_loss : ℚ
  train_acc : ℚ
  step : ℕ
deriving DecidableEq

/-- Transcription of the accumulate-log-reset structure of the training loop
(train.py lines 200-262): `batches` lists each batch's loss value and match
count, `idx` the running batch index, then the two accumulators. -/
def trainLogs (interval batch_size epoch n : ℕ) :
    List (ℚ × ℕ) → ℕ → ℚ → ℕ → List LogRec
  | [], _, _, _ => []
  | b :: rest, idx, loss_value, mcount =>
    if (idx + 1) % interval = 0 then
      { train_loss := (loss_value + b.1) / (interval : ℚ),
        train_acc := ((mcount + b.2 : ℕ) : ℚ) / (batch_size : ℚ) / (interval : ℚ),
        step := epoch * n + idx }
        :: trainLogs interval batch_size epoch n rest (idx + 1) 0 0
    else
      trainLogs interval batch_size epoch n rest (idx + 1) (loss_value + b.1) (mcount + b.2)

/-- Record claimed for the `j`-th logging window. -/
def windowRecord (interval batch_size epoch n : ℕ) (w : List (ℚ × ℕ)) (j : ℕ) :
    LogRec :=
  { train_loss := (w.map Prod.fst).sum / (interval : ℚ),
    train_acc := (((w.map Prod.snd).sum : ℕ) : ℚ) / ((batch_size * interval : ℕ) : ℚ),
    step := epoch * n + ((j + 1) * interval - 1) }

/-- Logging behaviour as the specification words it: the epoch batches are
cut into disjoint consecutive windows of `log_interval` batches; for each full
window one record is logged, holding the loss accumulated over the window
divided by `log_interval`, the match count accumulated over the window divided
by `batch_size * log_interval`, at global step `epoch * n + idx` where `idx`
is the index of the last batch of the window. -/
def windowLogs (interval batch_size epoch n : ℕ) (batches : List (ℚ × ℕ)) :
    List LogRec :=
  (List.range (batches.length / interval)).map
    (fun j => windowRecord interval batch_size epoch n
      ((batches.drop (j * interval)).take interval) j)

/-- No record is emitted while fewer batches remain than the rest of the
current window. -/
theorem trainLogs_no_emit (interval batch_size epoch n : ℕ) :
    ∀ (ws : List (ℚ × ℕ)) (q r : ℕ) (lv : ℚ) (mt : ℕ),
    r + ws.length < interval →
    trainLogs interval batch_size epoch n ws (q * interval + r) lv mt = [] := by
  intro ws
  induction ws with
  | nil => intro q r lv mt h; rfl
  | cons b rest ih =>
    intro q r lv mt h
    have hmod : (q * interval + r + 1) % interval = r + 1 := by
      rw [Nat.add_assoc, Nat.add_comm (q * interval) (r + 1),
        Nat.add_mul_mod_self_right]
      exact Nat.mod_eq_of_lt (by simp at h; omega)
    simp only [trainLogs, hmod]
    rw [if_neg (by omega)]
    have hrec := ih q (r + 1) (lv + b.1) (mt + b.2) (by simp at h ⊢; omega)
    rw [← Nat.add_assoc] at hrec
    exact hrec

/-- Consuming exactly the rest of the current window emits one record built
from the accumulators plus the window sums, then restarts on the next window
boundary with cleared accumulators. -/
theorem trainLogs_emit (interval batch_size epoch n : ℕ) :
    ∀ (ws rest : List (ℚ × ℕ)) (q r : ℕ) (lv : ℚ) (mt : ℕ),
    r + ws.length = interval → ws ≠ [] →
    trainLogs interval batch_size epoch n (ws ++ rest) (q * interval + r) lv mt
      = { train_loss := (lv + (ws.map Prod.fst).sum) / (interval : ℚ),
          train_acc := ((mt + (ws.map Prod.snd).sum : ℕ) : ℚ)
            / (batch_size : ℚ) / (interval : ℚ),
          step := epoch * n + (q * interval + (interval - 1)) }
        :: trainLogs interval batch_size epoch n rest ((q + 1) * interval) 0 0 := by
  intro ws
  induction ws with
  | nil => intro rest q r lv mt h hne; exact absurd rfl hne
  | cons b ws2 ih =>
    intro rest q r lv mt h hne
    rcases ws2 with _ | ⟨y, ws3⟩
    · have hr : r + 1 = interval := by simpa using h
      have hmod : (q * interval + r + 1) % interval = 0 := by
        have h1 : q * interval + r + 1 = (q + 1) * interval := by
          rw [Nat.succ_mul]; omega
        rw [h1, Nat.mul_mod_left]
      rw [List.singleton_append, trainLogs, if_pos hmod]
      congr 1
      · simp only [LogRec.mk.injEq]
        refine ⟨by simp, by simp, by omega⟩
      · rw [show q * interval + r + 1 = (q + 1) * interval from by rw [Nat.succ_mul]; omega]
    · have hlen : r + 1 < interval := by
        simp only [List.length_cons] at h
        omega
      have hmod : (q * interval + r + 1) % interval = r + 1 := by
        rw [Nat.add_assoc, Nat.add_comm (q * interval) (r + 1),
          Nat.add_mul_mod_self_right]
        exact Nat.mod_eq_of_lt hlen
      rw [List.cons_append, trainLogs, hmod, if_neg (by omega)]
      have hrec := ih rest q (r + 1) (lv + b.1) (mt + b.2)
        (by simp only [List.length_cons] at h ⊢; omega) (by simp)
      rw [← Nat.add_assoc] at hrec
      rw [hrec]
      congr 1
      simp only [LogRec.mk.injEq, List.map_cons, List.sum_cons]
      refine ⟨by ring, ?_, trivial⟩
      rw [Nat.add_assoc]

/-- Windowed description of the training-loop logging, shifted by `q` already
completed windows. -/
theorem trainLogs_windows (interval batch_size epoch n : ℕ) (hpos : 0 < interval) :
    ∀ (fuel : ℕ) (batches : List (ℚ × ℕ)) (q : ℕ), batches.length ≤ fuel →
    trainLogs interval batch_size epoch n batches (q * interval) 0 0
      = (List.range (batches.length / interval)).map
          (fun j => windowRecord interval batch_size epoch n
            ((batches.drop (j * interval)).take interval) (q + j)) := by
  intro fuel
  induction fuel with
  | zero =>
    intro batches q h
    have hb : batches = [] := List.length_eq_zero.mp (Nat.le_zero.mp h)
    subst hb
    simp [trainLogs, Nat.zero_div]
  | succ f ih =>
    intro batches q h
    by_cases hlen : batches.length < interval
    · rw [Nat.div_eq_of_lt hlen, List.range_zero, List.map_nil]
      have hz := trainLogs_no_emit interval batch_size epoch n batches q 0 0 0
        (by omega)
      simpa using hz
    · push_neg at hlen
      have hne_take : batches.take interval ≠ [] := by
        intro hc
        have hc2 := congrArg List.length hc
        rw [List.length_take] at hc2
        simp only [List.length_nil] at hc2
        omega
      have hB := trainLogs_emit interval batch_size epoch n (batches.take interval)
        (batches.drop interval) q 0 0 0
        (by rw [List.length_take]; omega) hne_take
      rw [Nat.add_zero] at hB
      conv_lhs => rw [← List.take_append_drop interval batches]
      rw [hB]
      have hdiv : batches.length / interval = (batches.length - interval) / interval + 1 :=
        Nat.div_eq_sub_div hpos hlen
      rw [hdiv, List.range_succ_eq_map, List.map_cons]
      congr 1
      · simp only [windowRecord, LogRec.mk.injEq, Nat.zero_mul, List.drop_zero,
          Nat.add_zero]
        refine ⟨by simp, ?_, ?_⟩
        · push_cast
          rw [div_div]
          simp
        · rw [Nat.succ_mul]
          omega
      · have hrest := ih (batches.drop interval) (q + 1)
          (by rw [List.length_drop]; omega)
        rw [hrest, List.map_map, List.length_drop]
        refine List.map_congr_left ?_
        intro j hj
        simp only [Function.comp_apply]
        rw [List.drop_drop]
        rw [show interval + j * interval = (j + 1) * interval from by rw [Nat.succ_mul]; omega]
        rw [show q + 1 + j = q + (j + 1) from by omega]

/-- C5: over an epoch the training loop logs exactly one record per full
window of `log_interval` consecutive batches, holding the accumulated loss
divided by `log_interval` and the accumulated match count divided by
`batch_size * log_interval`, at global step `epoch * n + idx` for `idx` the
index of the last batch of the window; the accumulators restart from zero at
each window, so the logged windows are disjoint. -/
theorem c5_train_logging (interval batch_size epoch n : ℕ)
    (batches : List (ℚ × ℕ)) (hpos : 0 < interval) :
    trainLogs interval batch_size epoch n batches 0 0 0
      = windowLogs interval batch_size epoch n batches := by
  have h := trainLogs_windows interval batch_size epoch n hpos
    batches.length batches 0 le_rfl
  rw [Nat.zero_mul] at h
  rw [h]
  unfold windowLogs
  refine List.map_congr_left ?_
  intro j hj
  rw [Nat.zero_add]

/-- Witness for C5 on a concrete five-batch epoch with interval 2. -/
theorem c5_witness :
    0 < 2
    ∧ trainLogs 2 64 1 5 [(1, 3), (2, 1), (3, 0), (4, 2), (5, 9)] 0 0 0
      = windowLogs 2 64 1 5 [(1, 3), (2, 1), (3, 0), (4, 2), (5, 9)] :=
  ⟨by decide,
    c5_train_logging 2 64 1 5 [(1, 3), (2, 1), (3, 0), (4, 2), (5, 9)] (by decide)⟩
/-! ### Concrete configurations used by the witnesses -/

/-- A single-task configuration: default criterion, mask task, no mixing. -/
def wArgsSingle : Args :=
  { criterion := "cross_entropy", multi_label := "mask", mixp := 0,
    kfold := 5, k := 0, name := "exp", data_selection := "1_0_0" }

/-- The single-task configuration with mixing probability 1/2. -/
def wArgsMix : Args :=
  { criterion := "cross_entropy", multi_label := "mask", mixp := 1/2,
    kfold := 5, k := 0, name := "exp", data_selection := "1_0_0" }

/-- Concrete external behaviour over a trivial image type. -/
def wExt : Ext Unit :=
  { model := fun _ => PyOuts.tensor [[1, 0]],
    crit := fun _ _ => 1,
    loss_func := fun _ _ => 1,
    encode := fun m _ _ => m,
    data_mix := fun i l => { inputs2 := i, lam := 1/2, target_a := l, target_b := l },
    draw := 1/4 }

/-- Concrete one-element label batch. -/
def wLabels : LabelDict := { mask := [0], gender := [1], age := [2], label := [3] }

/-- Witness for C2 at a concrete single-task configuration and batch. -/
theorem c2_witness :
    wArgsSingle.criterion ≠ "multi_label"
    ∧ (wArgsSingle.multi_label = "mask" ∨ wArgsSingle.multi_label = "age"
        ∨ wArgsSingle.multi_label = "gender")
    ∧ ((trainStep wArgsSingle wExt () wLabels).error.isSome = true
      ∧ (trainStep wArgsSingle wExt () wLabels).backward_done = false
      ∧ (trainStep wArgsSingle wExt () wLabels).optimizer_stepped = false) :=
  ⟨by decide, Or.inl rfl,
    (c2_single_task_step Unit wArgsSingle wExt () wLabels (by decide) (Or.inl rfl)).2.2.2⟩

/-- Witness for C3 at a concrete configuration with nonzero mixing
probability. -/
theorem c3_witness :
    wArgsMix.criterion ≠ "multi_label"
    ∧ wArgsMix.mixp ≠ 0
    ∧ ((trainStep wArgsMix wExt () wLabels).mixed = true ↔ wExt.draw < wArgsMix.mixp) := by
  have hmz : wArgsMix.mixp ≠ 0 := by
    show (1 : ℚ)/2 ≠ 0
    norm_num
  exact ⟨by decide, hmz, (c3_mixing Unit wArgsMix wExt () wLabels).2.1 hmz⟩

/-- A configuration with the multi-label criterion and nonzero mixing
probability. -/
def wArgsMultiMix : Args :=
  { criterion := "multi_label", multi_label := "multi_label", mixp := 1/2,
    kfold := 5, k := 0, name := "exp", data_selection := "1_0_0" }

/-- Counterexample for C3 as originally stated: with `--criterion multi_label`
and `mixp = 1/2`, a draw of 1/4 mixes the batch (the draw is below `mixp` and
`data_mix` is applied at line 219), yet the mixed-batch loss is never the
lam-weighted combination of any criterion — line 221 reads the unbound local
`criterion` and the step aborts with no loss computed. -/
theorem c3_counterexample :
    (trainStep wArgsMultiMix wExt () wLabels).mixed = true
    ∧ wExt.draw < wArgsMultiMix.mixp
    ∧ (trainStep wArgsMultiMix wExt () wLabels).loss = none
    ∧ (trainStep wArgsMultiMix wExt () wLabels).error = some unboundCriterionMsg := by
  have hmz : wArgsMultiMix.mixp ≠ 0 := by
    show (1 : ℚ)/2 ≠ 0
    norm_num
  have hd : wExt.draw < wArgsMultiMix.mixp := by
    show (1 : ℚ)/4 < (1 : ℚ)/2
    norm_num
  have heq : trainStep wArgsMultiMix wExt () wLabels =
      { mixed := true, inputs_used := some (), loss := none,
        backward_done := false, optimizer_stepped := false,
        loss_value_add := 0, matches_add := 0, error := some unboundCriterionMsg } := by
    unfold trainStep
    rw [if_pos hmz, if_pos hd,
      if_pos (show wArgsMultiMix.criterion = "multi_label" from rfl)]
  rw [heq]
  exact ⟨rfl, hd, rfl, rfl⟩

/-- Witness for C9 on a concrete filesystem holding `runs/exp` and
`runs/exp3`. -/
theorem c9_witness :
    pathExists ["runs/exp", "runs/exp3"] "runs/exp" = true
    ∧ increment_path ["runs/exp", "runs/exp3"] "runs/exp" false
        = "runs/exp" ++ toString (3 + 1) := by
  refine ⟨by decide, ?_⟩
  obtain ⟨m, hm, _, heq⟩ :=
    ((c9_increment_path ["runs/exp", "runs/exp3"] "runs/exp" false).2 (by decide) rfl).2
      (by decide)
  have hsib : numberedSiblings ["runs/exp", "runs/exp3"] "runs/exp" = [3] := by decide
  rw [hsib] at hm
  have hm3 : m = 3 := by simpa using hm
  rw [hm3] at heq
  exact heq

/-- A concrete validation batch of 16 images. -/
def wValBatch : ValBatchData Unit := { inputs := (), nimages := 16, labels := wLabels }

/-- A concrete validation batch of only 4 images. -/
def wValBatchSmall : ValBatchData Unit := { inputs := (), nimages := 4, labels := wLabels }

/-- Witness for C4: a concrete single-task validation epoch fails. -/
theorem c4_witness :
    wArgsSingle.criterion ≠ "multi_label"
    ∧ ∃ e, valEpoch wArgsSingle wExt [wValBatch] 1 = Except.error e := by
  refine ⟨by decide, ?_⟩
  refine c4_val_metrics Unit wArgsSingle wExt [wValBatch] 1
    (Or.inr ⟨by decide, Or.inl rfl⟩) (by simp) ?_ ?_
  · intro b hb t lab ht hl
    simp only [List.mem_singleton] at hb
    subst hb
    simp [wExt, wValBatch] at ht
    simp [select_task_labels, wArgsSingle, wValBatch, wLabels] at hl
    subst ht
    subst hl
    rfl
  · intro b hb lab hl
    simp only [List.mem_singleton] at hb
    subst hb
    simp [select_task_labels, wArgsSingle, wValBatch, wLabels] at hl
    subst hl
    simp

/-- Witness for C10: a first validation batch of 4 images trips the
assertion. -/
theorem c10_witness :
    wValBatchSmall.nimages < 16
    ∧ valStep wArgsSingle wExt initValState wValBatchSmall
        = Except.error assertionErrorMsg := by
  refine ⟨by decide, ?_⟩
  exact (c10_grid_image Unit wArgsSingle wExt wValBatchSmall (by decide)
    ⟨[0], by simp [select_task_labels, wArgsSingle, wValBatchSmall, wLabels]⟩
    ⟨[[1, 0]], rfl⟩ (by decide)).2.2

end MaskRepo
